import Mathlib

-- Verification of the multi-agent task pipeline of the llamacpp_assist
-- Home Assistant integration: Planner, Resolver, Selector and Executor are
-- embedded shallowly; Python strings are lists of characters, dictionaries
-- are structures with optional fields, and the platform plus the LLM are
-- explicit environments.

namespace LlamaAssist

-- Python string primitives, restricted to the ASCII case mapping that the
-- Lean core Char functions implement.  The source only ever case-folds the
-- ASCII keyword vocabulary, so this restriction is faithful where it is used.

def pySpace (c : Char) : Bool := c.isWhitespace

def pyLower (l : List Char) : List Char := l.map Char.toLower

-- str.strip with no argument: remove leading and trailing whitespace.
def pyStrip (l : List Char) : List Char :=
  ((l.dropWhile pySpace).reverse.dropWhile pySpace).reverse

-- str.capitalize: first character upper-cased, the rest lower-cased.
def pyCapitalize : List Char → List Char
  | [] => []
  | c :: cs => c.toUpper :: cs.map Char.toLower

-- Boolean prefix test on character lists.
def isPre : List Char → List Char → Bool
  | [], _ => true
  | _ :: _, [] => false
  | a :: as, b :: bs => a == b && isPre as bs

-- Case-insensitive prefix test: the pattern is given lower-cased.
def isPreCI : List Char → List Char → Bool
  | [], _ => true
  | _ :: _, [] => false
  | a :: as, b :: bs => a == b.toLower && isPreCI as bs

-- Python substring test (the in operator on strings).
def strIn (needle hay : List Char) : Bool := decide (needle <:+: hay)

-- Truthiness of an optional string field read with dict.get: None and the
-- empty string are falsy.
def pyTruthy : Option String → Bool
  | none => false
  | some s => s != ""

-- Python str() of a natural number (decimal), written with explicit fuel so
-- that it reduces by evaluation.
def natDecAux : Nat → Nat → List Char → List Char
  | 0, _, acc => acc
  | fuel + 1, n, acc =>
    if n = 0 then acc
    else natDecAux fuel (n / 10) (Char.ofNat (48 + n % 10) :: acc)

def natDec (n : Nat) : String :=
  if n = 0 then "0" else String.mk (natDecAux (n + 1) n [])

-- Decimal value of a digit string, used to relate natDec back to Nat and to
-- model int() applied to the digit group of the duration regex.
def digitsVal (l : List Char) : Nat :=
  l.foldl (fun a c => a * 10 + (c.toNat - 48)) 0

-- TaskResolver._resolve_shopping_add splits raw_items with the regular
-- expression  ,|\s+(?:und|and)\s+|\s+&\s+  (IGNORECASE).  sepMatch decides
-- whether one of the three alternatives, tried in the order written in the
-- pattern, matches at the current position, and returns the rest of the
-- input after the match.  The \s+ groups are greedy; since the characters
-- that must follow them are never whitespace, greedy matching is the same
-- as consuming the maximal whitespace run.
def sepWordTail (l : List Char) : Option (List Char) :=
  match l with
  | [] => none
  | c :: _ => if pySpace c then some (l.dropWhile pySpace) else none

def sepMatch : List Char → Option (List Char)
  | [] => none
  | c :: rest =>
    if c = ',' then some rest
    else if pySpace c then
      let after := (c :: rest).dropWhile pySpace
      if isPreCI ['u', 'n', 'd'] after then sepWordTail (after.drop 3)
      else if isPreCI ['a', 'n', 'd'] after then sepWordTail (after.drop 3)
      else
        match after with
        | '&' :: r2 => sepWordTail r2
        | _ => none
    else none

-- re.split driven by sepMatch; fuel bounds the recursion and is always
-- sufficient because every step consumes at least one character.
def splitGo : Nat → List Char → List Char → List (List Char)
  | 0, rest, acc => [acc.reverse ++ rest]
  | _ + 1, [], acc => [acc.reverse]
  | fuel + 1, c :: rest, acc =>
    match sepMatch (c :: rest) with
    | some rest2 => acc.reverse :: splitGo fuel rest2 []
    | none => splitGo fuel rest (c :: acc)

-- The list comprehension over the split result: strip, capitalize, and drop
-- tokens that strip to the empty string.
def shoppingSplitItems (raw : String) : List String :=
  (splitGo (raw.data.length + 1) raw.data []).filterMap (fun tok =>
    let t := pyStrip tok
    if t.isEmpty then none else some (String.mk (pyCapitalize t)))

-- TaskResolver._parse_duration.  The searched pattern is
-- (\d+)\s*(second|sekunde|minute|minuten|hour|stunde|stunden)? over the
-- lower-cased, stripped input; re.search finds the leftmost digit run, and
-- the optional unit group tries the alternatives in order as literal
-- prefixes of what follows the whitespace after the digits.
def durationUnits : List String :=
  ["second", "sekunde", "minute", "minuten", "hour", "stunde", "stunden"]

def durationLowerOf (s : String) : List Char := pyStrip (pyLower s.data)

def firstNumber (s : String) : Nat :=
  digitsVal (((durationLowerOf s).dropWhile (fun c => !c.isDigit)).takeWhile Char.isDigit)

def findUnit (l : List Char) : Option String :=
  durationUnits.find? (fun u => isPre u.data l)

def durationSearch (l : List Char) : Option (Nat × Option String) :=
  let rest := l.dropWhile (fun c => !c.isDigit)
  if rest.isEmpty then none
  else
    let digits := rest.takeWhile Char.isDigit
    let after := (rest.dropWhile Char.isDigit).dropWhile pySpace
    some (digitsVal digits, findUnit after)

-- str.startswith, stated on the character lists.
def pyStartsWith (s pre : String) : Bool := isPre pre.data s.data

def unitSeconds (n : Nat) (unit : String) : Nat :=
  if pyStartsWith unit "second" || pyStartsWith unit "sekunde" then n
  else if pyStartsWith unit "minute" || pyStartsWith unit "minuten" then n * 60
  else if pyStartsWith unit "hour" || pyStartsWith unit "stunde" then n * 3600
  else n * 60

def parseDuration (s : String) : Nat :=
  if s = "" then 300
  else
    match durationSearch (durationLowerOf s) with
    | none => 300
    | some (n, u) => unitSeconds n (u.getD "minute")

-- Model of the Python datetime values manipulated by the Resolver: a plain
-- civil date and time.  Only the operations the Resolver uses are embedded:
-- midnight truncation via replace, day stepping for timedelta(days=n),
-- one hour for timedelta(hours=1), and isoformat.
structure PyDateTime where
  year : Nat
  month : Nat
  day : Nat
  hour : Nat
  minute : Nat
  second : Nat
  microsecond : Nat
deriving DecidableEq

def isLeap (y : Nat) : Bool := y % 4 == 0 && (y % 100 != 0 || y % 400 == 0)

def daysInMonth (y m : Nat) : Nat :=
  if m = 2 then (if isLeap y then 29 else 28)
  else if m = 4 ∨ m = 6 ∨ m = 9 ∨ m = 11 then 30
  else 31

def nextDay (d : PyDateTime) : PyDateTime :=
  if d.day < daysInMonth d.year d.month then { d with day := d.day + 1 }
  else if d.month < 12 then { d with month := d.month + 1, day := 1 }
  else { d with year := d.year + 1, month := 1, day := 1 }

def prevDay (d : PyDateTime) : PyDateTime :=
  if 1 < d.day then { d with day := d.day - 1 }
  else if 1 < d.month then { d with month := d.month - 1, day := daysInMonth d.year (d.month - 1) }
  else { d with year := d.year - 1, month := 12, day := 31 }

def addDays (d : PyDateTime) (n : Nat) : PyDateTime := nextDay^[n] d

def addHour (d : PyDateTime) : PyDateTime :=
  if d.hour < 23 then { d with hour := d.hour + 1 } else { nextDay d with hour := 0 }

-- replace(hour=0, minute=0, second=0, microsecond=0)
def midnight (d : PyDateTime) : PyDateTime :=
  { d with hour := 0, minute := 0, second := 0, microsecond := 0 }

-- Zero-padded decimal rendering, as datetime.isoformat prints fields.
def padNat (w n : Nat) : String :=
  String.mk (List.replicate (w - (natDec n).length) '0') ++ natDec n

def isoformat (d : PyDateTime) : String :=
  padNat 4 d.year ++ "-" ++ padNat 2 d.month ++ "-" ++ padNat 2 d.day ++ "T" ++
  padNat 2 d.hour ++ ":" ++ padNat 2 d.minute ++ ":" ++ padNat 2 d.second ++
  (if d.microsecond = 0 then "" else "." ++ padNat 6 d.microsecond)

def digit2 (a b : Char) : Nat := (a.toNat - 48) * 10 + (b.toNat - 48)

def digit4 (a b c d : Char) : Nat := digit2 a b * 100 + digit2 c d

def allDigits (l : List Char) : Bool := l.all Char.isDigit

-- Models datetime.fromisoformat for the common YYYY-MM-DD and
-- YYYY-MM-DD{T or space}HH:MM[:SS] layouts; anything else is a parse
-- failure (ValueError in the source).  This is the only shape the pipeline
-- ever feeds it besides relative words, which never reach it.
def parseIsoDate (s : String) : Option PyDateTime :=
  match s.data with
  | [y1, y2, y3, y4, '-', m1, m2, '-', d1, d2] =>
    if allDigits [y1, y2, y3, y4, m1, m2, d1, d2] then
      let dt : PyDateTime :=
        { year := digit4 y1 y2 y3 y4, month := digit2 m1 m2, day := digit2 d1 d2,
          hour := 0, minute := 0, second := 0, microsecond := 0 }
      if 1 ≤ dt.month && dt.month ≤ 12 && 1 ≤ dt.day && dt.day ≤ daysInMonth dt.year dt.month
      then some dt else none
    else none
  | [y1, y2, y3, y4, '-', m1, m2, '-', d1, d2, sep, h1, h2, ':', n1, n2] =>
    if (sep = 'T' || sep = ' ') && allDigits [y1, y2, y3, y4, m1, m2, d1, d2, h1, h2, n1, n2] then
      let dt : PyDateTime :=
        { year := digit4 y1 y2 y3 y4, month := digit2 m1 m2, day := digit2 d1 d2,
          hour := digit2 h1 h2, minute := digit2 n1 n2, second := 0, microsecond := 0 }
      if 1 ≤ dt.month && dt.month ≤ 12 && 1 ≤ dt.day && dt.day ≤ daysInMonth dt.year dt.month
          && dt.hour ≤ 23 && dt.minute ≤ 59
      then some dt else none
    else none
  | [y1, y2, y3, y4, '-', m1, m2, '-', d1, d2, sep, h1, h2, ':', n1, n2, ':', s1, s2] =>
    if (sep = 'T' || sep = ' ')
        && allDigits [y1, y2, y3, y4, m1, m2, d1, d2, h1, h2, n1, n2, s1, s2] then
      let dt : PyDateTime :=
        { year := digit4 y1 y2 y3 y4, month := digit2 m1 m2, day := digit2 d1 d2,
          hour := digit2 h1 h2, minute := digit2 n1 n2, second := digit2 s1 s2,
          microsecond := 0 }
      if 1 ≤ dt.month && dt.month ≤ 12 && 1 ≤ dt.day && dt.day ≤ daysInMonth dt.year dt.month
          && dt.hour ≤ 23 && dt.minute ≤ 59 && dt.second ≤ 59
      then some dt else none
    else none
  | _ => none

-- TaskResolver._parse_date; now stands for datetime.now().
def parseDate (now : PyDateTime) (date_str : String) : PyDateTime :=
  if date_str = "" then now
  else
    let dl := String.mk (pyStrip (pyLower date_str.data))
    if dl = "today" ∨ dl = "heute" then midnight now
    else if dl = "tomorrow" ∨ dl = "morgen" then midnight (nextDay now)
    else if dl = "yesterday" ∨ dl = "gestern" then midnight (prevDay now)
    else
      match parseIsoDate date_str with
      | some dt => dt
      | none => now

-- Dictionary-shaped records read and written by the pipeline stages.

-- An element of available_entities as the Resolver builds it and the
-- Selector reads it back with dict.get.
structure AvailEntity where
  entity_id : Option String := none
  friendly_name : Option String := none
  state : Option String := none
  domain : Option String := none
deriving DecidableEq

-- An element of available_calendars.
structure CalEntry where
  entity_id : String
  friendly_name : String
deriving DecidableEq

-- The service_data dictionary the Selector writes.  The source stores the
-- empty dictionary on the LLM-error path; that case is modelled by the
-- surrounding Option being none.
structure ServiceData where
  domain : String
  service : String
  data : List (String × String)
deriving DecidableEq

-- One task dictionary.  Fields the code reads with dict.get are Options;
-- list-valued fields default to the empty list exactly as the code defaults
-- them.  extra models further scalar keys of the task dictionary, which
-- _select_device_entities scans for service parameters.
structure Task where
  type : Option String := none
  id : Option String := none
  status : Option String := none
  action : Option String := none
  domain : Option String := none
  raw_targets : List String := []
  params : List (String × String) := []
  extra : List (String × String) := []
  raw_items : Option String := none
  items : List String := []
  duration : Option String := none
  duration_seconds : Option Nat := none
  start : Option String := none
  «end» : Option String := none
  start_iso : Option String := none
  end_iso : Option String := none
  summary : Option String := none
  description : Option String := none
  location : Option String := none
  item : Option String := none
  available_entities : List AvailEntity := []
  service_schema : List (String × String) := []
  selected_entities : List String := []
  service_data : Option ServiceData := none
  available_calendars : List CalEntry := []
  selected_calendar : Option String := none
deriving DecidableEq

-- One calendar event as returned by the platform.
structure CalEvent where
  summary : String := ""
  start : String := ""
  «end» : String := ""
  description : String := ""
  location : String := ""
deriving DecidableEq

-- The live platform state the Resolver and Executor query, together with
-- the outcome oracle for service calls: call_ok k is whether the k-th
-- service call of one Executor run succeeds (an exception in the source).
structure EntityState where
  entity_id : String
  friendly_name : Option String := none
  state : String := ""
deriving DecidableEq

structure HassState where
  states : List EntityState
  shopping_items : Option (List (String × Bool))
  cal_events : String → List CalEvent
  call_ok : Nat → Bool

-- TaskResolver._guess_domain.
def containsAny (text : String) (words : List String) : Bool :=
  words.any (fun w => strIn w.data text.data)

def guessDomain (targets : List String) : String :=
  let text := String.mk (pyLower (String.intercalate " " targets).data)
  if containsAny text ["lampe", "licht", "light"] then "light"
  else if containsAny text ["steckdose", "schalter", "switch", "plug"] then "switch"
  else if containsAny text ["thermostat", "heizung", "heating", "hvac", "klima"] then "climate"
  else if containsAny text ["musik", "music", "fernseher", "tv", "lautsprecher", "speaker",
      "media", "player", "radio"] then "media_player"
  else if containsAny text ["cover", "blind", "jalousie", "rollo", "vorhang", "curtain"] then "cover"
  else if containsAny text ["fan", "lüfter", "ventilator"] then "fan"
  else if containsAny text ["lock", "schloss", "türschloss"] then "lock"
  else if containsAny text ["vacuum", "staubsauger"] then "vacuum"
  else if containsAny text ["timer", "countdown", "stoppuhr"] then "timer"
  else "light"

-- TaskResolver._resolve_device_control; task.get("domain") or guess applies
-- Python or-truthiness, so an empty explicit domain also falls to the guess.
def resolveDeviceControl (hass : HassState) (task : Task) : Task :=
  let domain :=
    if pyTruthy task.domain then task.domain.getD "" else guessDomain task.raw_targets
  let available := hass.states.filterMap (fun st =>
    if isPre (domain ++ ".").data st.entity_id.data then
      some { entity_id := some st.entity_id,
             friendly_name := some (st.friendly_name.getD st.entity_id),
             state := some st.state,
             domain := some domain : AvailEntity }
    else none)
  { task with available_entities := available, service_schema := [],
              domain := some domain, status := some "awaiting_selection" }

-- TaskResolver._resolve_timer_start.
def resolveTimerStart (task : Task) : Task :=
  { task with duration_seconds := some (parseDuration (task.duration.getD "")),
              status := some "ready_for_execution" }

-- TaskResolver._resolve_shopping_add.
def resolveShoppingAdd (task : Task) : Task :=
  { task with items := shoppingSplitItems (task.raw_items.getD ""),
              status := some "ready_for_execution" }

-- The start timestamp of _resolve_calendar_query: parse the start string if
-- it is truthy, else datetime.now().
def calendarStartDt (now : PyDateTime) (task : Task) : PyDateTime :=
  if pyTruthy task.start then parseDate now (task.start.getD "") else now

-- TaskResolver._resolve_calendar_query.
def resolveCalendarQuery (now : PyDateTime) (task : Task) : Task :=
  let start_dt := calendarStartDt now task
  let end_dt :=
    if pyTruthy task.«end» then parseDate now (task.«end».getD "") else addDays start_dt 7
  let end_dt :=
    if pyTruthy task.start && pyTruthy task.«end» && task.start == task.«end»
    then addDays start_dt 1 else end_dt
  { task with start_iso := some (isoformat start_dt), end_iso := some (isoformat end_dt),
              status := some "ready_for_execution" }

-- TaskResolver._resolve_calendar_create; start and end are read with a ""
-- default here, and the calendar list comes from the live states.
def resolveCalendarCreate (hass : HassState) (now : PyDateTime) (task : Task) : Task :=
  let startStr := task.start.getD ""
  let endStr := task.«end».getD ""
  let start_dt := if startStr != "" then parseDate now startStr else now
  let end_dt := if endStr != "" then parseDate now endStr else addHour start_dt
  let available_calendars := hass.states.filterMap (fun st =>
    if isPre "calendar.".data st.entity_id.data then
      some { entity_id := st.entity_id,
             friendly_name := st.friendly_name.getD st.entity_id : CalEntry }
    else none)
  let task := { task with start_iso := some (isoformat start_dt),
                          end_iso := some (isoformat end_dt) }
  if !available_calendars.isEmpty then
    { task with available_calendars := available_calendars,
                status := some "awaiting_selection" }
  else
    { task with status := some "ready_for_execution" }

-- TaskResolver.resolve_tasks dispatch for one task (the loop body).
def resolveTask (hass : HassState) (now : PyDateTime) (task : Task) : Task :=
  if task.type = some "device_control" then resolveDeviceControl hass task
  else if task.type = some "timer_start" then resolveTimerStart task
  else if task.type = some "shopping_add" then resolveShoppingAdd task
  else if task.type = some "calendar_query" then resolveCalendarQuery now task
  else if task.type = some "calendar_create" then resolveCalendarCreate hass now task
  else { task with status := some "ready_for_execution" }

def resolveTasks (hass : HassState) (now : PyDateTime) (tasks : List Task) : List Task :=
  tasks.map (resolveTask hass now)

-- The parsed JSON dictionary the Selection Agent receives from
-- parse_json_response; the code only reads its selected_entities key, whose
-- value may be absent or null (none) or any list of strings.
structure SelectionResult where
  selected_entities : Option (List String)
deriving DecidableEq

-- Outcome of the Selector LLM call: err models the call raising.
inductive LLMOutcome where
  | err
  | ok (res : SelectionResult)
deriving DecidableEq

-- The set of valid entity ids: entity_id values that are present and truthy.
def availIds (es : List AvailEntity) : List String :=
  es.filterMap (fun e =>
    match e.entity_id with
    | some eid => if eid = "" then none else some eid
    | none => none)

-- SelectionAgent._action_to_service: the domain-aware action to service
-- mapping tables, with each dictionary as an association list and the
-- dict.get default as getD.
def climateActionMap : List (String × String) :=
  [("set_temperature", "set_temperature"), ("set_temp", "set_temperature"),
   ("set_hvac_mode", "set_hvac_mode"), ("set_mode", "set_hvac_mode"),
   ("turn_on", "turn_on"), ("turn_off", "turn_off")]

def coverActionMap : List (String × String) :=
  [("open", "open_cover"), ("open_cover", "open_cover"),
   ("close", "close_cover"), ("close_cover", "close_cover"),
   ("stop", "stop_cover"), ("stop_cover", "stop_cover"), ("toggle", "toggle")]

def lockActionMap : List (String × String) :=
  [("lock", "lock"), ("unlock", "unlock"), ("open", "open")]

def mediaActionMap : List (String × String) :=
  [("play", "media_play"), ("media_play", "media_play"),
   ("pause", "media_pause"), ("media_pause", "media_pause"),
   ("stop", "media_stop"), ("media_stop", "media_stop"),
   ("next", "media_next_track"), ("previous", "media_previous_track"),
   ("volume_up", "volume_up"), ("volume_down", "volume_down"),
   ("mute", "volume_mute"), ("turn_on", "turn_on"), ("turn_off", "turn_off")]

def fanActionMap : List (String × String) :=
  [("turn_on", "turn_on"), ("turn_off", "turn_off"), ("toggle", "toggle"),
   ("set_speed", "set_percentage"), ("set_percentage", "set_percentage")]

def vacuumActionMap : List (String × String) :=
  [("start", "start"), ("pause", "pause"), ("stop", "stop"),
   ("return_to_base", "return_to_base"), ("clean_spot", "clean_spot"),
   ("turn_on", "start"), ("turn_off", "return_to_base")]

def lightSwitchActionMap : List (String × String) :=
  [("turn_on", "turn_on"), ("on", "turn_on"), ("turn_off", "turn_off"),
   ("off", "turn_off"), ("toggle", "toggle"), ("set", "turn_on")]

def defaultActionMap : List (String × String) :=
  [("turn_on", "turn_on"), ("turn_off", "turn_off"), ("toggle", "toggle")]

def actionToService (action : String) (domain : String) : String :=
  let action_lower := String.mk (pyLower action.data)
  if domain = "climate" then (climateActionMap.lookup action_lower).getD "set_temperature"
  else if domain = "cover" then (coverActionMap.lookup action_lower).getD "toggle"
  else if domain = "lock" then (lockActionMap.lookup action_lower).getD "lock"
  else if domain = "media_player" then (mediaActionMap.lookup action_lower).getD "media_play"
  else if domain = "fan" then (fanActionMap.lookup action_lower).getD "turn_on"
  else if domain = "vacuum" then (vacuumActionMap.lookup action_lower).getD "start"
  else if domain = "light" ∨ domain = "switch" then
    (lightSwitchActionMap.lookup action_lower).getD "turn_on"
  else (defaultActionMap.lookup action_lower).getD "turn_on"

-- The param_fields scan of _select_device_entities: task-level keys copied
-- into the service parameters when not already present.
def paramFields : List String :=
  ["temperature", "target_temperature", "temp", "hvac_mode", "brightness", "color_temp",
   "position", "percentage", "speed", "volume_level", "media_content_id"]

def mergeParamFields (task : Task) (params : List (String × String)) :
    List (String × String) :=
  paramFields.foldl (fun sp field =>
    match task.extra.lookup field with
    | some v => if (sp.lookup field).isSome then sp else sp ++ [(field, v)]
    | none => sp) params

-- SelectionAgent._normalize_service_params.  Parameter-name folding is
-- modelled; the int()/float() value coercions of the source act on numeric
-- types and are outside this embedding (floating point), so values pass
-- through as the strings carried by the task model.
def normalizeServiceParams (params : List (String × String)) (domain : String) :
    List (String × String) :=
  params.map (fun kv =>
    (if kv.fst = "target_temperature" ∨ kv.fst = "temp" then "temperature" else kv.fst,
     kv.snd))

-- SelectionAgent._select_device_entities: hard filter of the LLM proposal
-- against the known entity ids, local substring fallback, service_data
-- built from the task itself, and status advancing in both branches.
def selectDeviceEntities (llm : LLMOutcome) (task : Task) : Task :=
  match llm with
  | .err =>
    { task with selected_entities := [], service_data := none, status := some "failed" }
  | .ok res =>
    let available_entities := task.available_entities
    let raw_targets := task.raw_targets
    let params := task.params
    let available_ids := availIds available_entities
    let raw_selected := res.selected_entities.getD []
    let filtered_selected := raw_selected.filter (fun eid => available_ids.contains eid)
    let selected_entities :=
      if filtered_selected.isEmpty && !available_entities.isEmpty && !raw_targets.isEmpty
      then
        let lowered_targets := raw_targets.map (fun t => pyLower t.data)
        available_entities.filterMap (fun e =>
          let friendly := pyLower (e.friendly_name.getD "").data
          match e.entity_id with
          | none => none
          | some eid =>
            if eid = "" then none
            else if lowered_targets.any (fun t => strIn t friendly) then some eid else none)
      else filtered_selected
    let action := task.action.getD "turn_on"
    let domain := task.domain.getD "light"
    let service_params := normalizeServiceParams (mergeParamFields task params) domain
    let service_data : ServiceData :=
      { domain := domain, service := actionToService action domain, data := service_params }
    -- both status branches of the source assign ready_for_execution
    { task with selected_entities := selected_entities, service_data := some service_data,
                status := some "ready_for_execution" }

-- SelectionAgent._select_calendar.
def selectCalendar (task : Task) : Task :=
  match task.available_calendars with
  | [] => { task with selected_calendar := none, status := some "ready_for_execution" }
  | c :: _ => { task with selected_calendar := some c.entity_id,
                          status := some "ready_for_execution" }

-- SelectionAgent.select loop body for one task.
def selectTask (llm : LLMOutcome) (task : Task) : Task :=
  if task.status = some "awaiting_selection" then
    if task.type = some "device_control" then selectDeviceEntities llm task
    else if task.type = some "calendar_create" then selectCalendar task
    else { task with status := some "ready_for_execution" }
  else task

-- PlannerAgent.plan post-validation: enumerate the tasks, assigning missing
-- ids positionally and defaulting missing statuses.
def plannerAssignGo : Nat → List Task → List Task
  | _, [] => []
  | i, t :: ts =>
    { t with id := if t.id = none then some ("t" ++ natDec (i + 1)) else t.id,
             status := if t.status = none then some "pending" else t.status }
      :: plannerAssignGo (i + 1) ts

def plannerAssign (tasks : List Task) : List Task := plannerAssignGo 0 tasks

-- Shape of the parsed Planner LLM response after parse_json_response:
-- fail models the call or the JSON parse raising; tasksField none models a
-- tasks key whose value is not a list.
inductive PlannerParse where
  | fail
  | tasksField (ts : Option (List Task))
  | responseField (s : String)
  | neither

inductive PlannerResult where
  | tasks (ts : List Task)
  | response (s : String)

def plan (p : PlannerParse) : PlannerResult :=
  match p with
  | .fail => .response "I\x27m sorry, I had trouble understanding that. Could you rephrase?"
  | .tasksField none => .response "I\x27m sorry, I had trouble processing that request."
  | .tasksField (some ts) => .tasks (plannerAssign ts)
  | .responseField s => .response s
  | .neither => .response "I\x27m not sure how to help with that."

-- One real platform service call made by the Executor, identified by which
-- call site issued it.  Device-control calls are identified by their dedup
-- signature domain.service:entity_id.
inductive CallRec where
  | device (sig : String)
  | shoppingAddItem (name : String)
  | calendarGet (cal start_iso end_iso : String)
  | calendarCreateEvent (cal : String)
deriving DecidableEq

-- Mutable Executor state for one execute_tasks run: the dedup signature set
-- (a Python set; the code only inserts a signature it has just checked to
-- be absent, so an append-only list is an exact model) and the log of real
-- service calls with their outcomes.
structure ExecSt where
  executed_signatures : List String
  calls : List (CallRec × Bool)
deriving DecidableEq

def initExecSt : ExecSt := { executed_signatures := [], calls := [] }

-- Perform one platform service call: the outcome is drawn from the oracle
-- at the current call index and the call is logged.
def doCall (hass : HassState) (st : ExecSt) (rec : CallRec) : Bool × ExecSt :=
  let ok := hass.call_ok st.calls.length
  (ok, { st with calls := st.calls ++ [(rec, ok)] })

-- One event dictionary of the merged calendar_query answer.
structure ReportedEvent where
  calendar : String
  summary : String
  start : String
  «end» : String
  description : String
  location : String
deriving DecidableEq

-- One result record of the execution report.  Keys absent from a given
-- record shape are none.
structure ExecResult where
  task_id : String
  task_type : Option String
  operation : Option String := none
  entity : Option String := none
  item : Option String := none
  items : Option (List String) := none
  calendar : Option String := none
  summary : Option String := none
  events : Option (List ReportedEvent) := none
  event_count : Option Nat := none
  message : Option String := none
  success : Bool
  skipped : Option String := none
  error : Option String := none
deriving DecidableEq

def mkSig (domain service entity_id : String) : String :=
  domain ++ "." ++ service ++ ":" ++ entity_id

-- The body of the per-entity loop of _execute_device_control.  The str(err)
-- text of a raised platform exception is outside the embedding and is
-- modelled by a fixed message.
def executeDeviceEntity (hass : HassState) (task_id domain service : String)
    (entity_id : String) (st : ExecSt) : ExecResult × ExecSt :=
  let sig := mkSig domain service entity_id
  if st.executed_signatures.contains sig then
    ({ task_id := task_id, task_type := some "device_control",
       operation := some (domain ++ "." ++ service), entity := some entity_id,
       success := true, skipped := some "duplicate" }, st)
  else
    let p := doCall hass st (.device sig)
    if p.fst then
      ({ task_id := task_id, task_type := some "device_control",
         operation := some (domain ++ "." ++ service), entity := some entity_id,
         success := true },
       { p.snd with executed_signatures := p.snd.executed_signatures ++ [sig] })
    else
      ({ task_id := task_id, task_type := some "device_control",
         operation := some (domain ++ "." ++ service), entity := some entity_id,
         success := false, error := some "service call failed" }, p.snd)

def execEntitiesGo (hass : HassState) (task_id domain service : String) :
    List String → ExecSt → List ExecResult × ExecSt
  | [], st => ([], st)
  | e :: es, st =>
    let p := executeDeviceEntity hass task_id domain service e st
    let q := execEntitiesGo hass task_id domain service es p.snd
    (p.fst :: q.fst, q.snd)

-- TaskExecutor._execute_device_control.
def executeDeviceControl (hass : HassState) (task : Task) (st : ExecSt) :
    List ExecResult × ExecSt :=
  let task_id := task.id.getD "unknown"
  let selected_entities := task.selected_entities
  if selected_entities.isEmpty then
    ([{ task_id := task_id, task_type := some "device_control",
        success := false, error := some "No entities selected" }], st)
  else
    let domain := (task.service_data.map (·.domain)).getD "light"
    let service := (task.service_data.map (·.service)).getD "turn_on"
    execEntitiesGo hass task_id domain service selected_entities st

-- TaskExecutor._execute_shopping_add: one add_item call per item, failures
-- captured per item.
def execShoppingGo (hass : HassState) (task_id : String) :
    List String → ExecSt → List ExecResult × ExecSt
  | [], st => ([], st)
  | it :: its, st =>
    let p := doCall hass st (.shoppingAddItem it)
    let r : ExecResult :=
      if p.fst then
        { task_id := task_id, task_type := some "shopping_add",
          operation := some "shopping_add", item := some it, success := true }
      else
        { task_id := task_id, task_type := some "shopping_add",
          operation := some "shopping_add", item := some it, success := false,
          error := some "service call failed" }
    let q := execShoppingGo hass task_id its p.snd
    (r :: q.fst, q.snd)

def executeShoppingAdd (hass : HassState) (task : Task) (st : ExecSt) :
    List ExecResult × ExecSt :=
  execShoppingGo hass (task.id.getD "unknown") task.items st

-- TaskExecutor._execute_shopping_query: reads the shopping list data held
-- by the platform; shopping_items none models the component being absent.
def executeShoppingQuery (hass : HassState) (task : Task) (st : ExecSt) :
    List ExecResult × ExecSt :=
  let task_id := task.id.getD "unknown"
  match hass.shopping_items with
  | some l =>
    ([{ task_id := task_id, task_type := some "shopping_query",
        operation := some "shopping_query",
        items := some ((l.filter (fun p => !p.snd)).map Prod.fst), success := true }], st)
  | none =>
    ([{ task_id := task_id, task_type := some "shopping_query",
        operation := some "shopping_query", items := some [], success := true }], st)

-- TaskExecutor._execute_shopping_remove: fixed not-implemented failure.
def executeShoppingRemove (task : Task) (st : ExecSt) : List ExecResult × ExecSt :=
  ([{ task_id := task.id.getD "unknown", task_type := some "shopping_remove",
      operation := some "shopping_remove", item := some (task.item.getD ""),
      success := false,
      error := some "Shopping remove not yet fully implemented" }], st)

-- The per-calendar fan-out of _execute_calendar_query: a failed get_events
-- call is skipped and the loop continues.
def execCalendarGo (hass : HassState) (start_iso end_iso : String) :
    List String → ExecSt → List ReportedEvent × ExecSt
  | [], st => ([], st)
  | cal :: cals, st =>
    let p := doCall hass st (.calendarGet cal start_iso end_iso)
    let evs :=
      if p.fst then
        (hass.cal_events cal).map (fun e =>
          { calendar := cal, summary := e.summary, start := e.start, «end» := e.«end»,
            description := e.description, location := e.location : ReportedEvent })
      else []
    let q := execCalendarGo hass start_iso end_iso cals p.snd
    (evs ++ q.fst, q.snd)

def executeCalendarQuery (hass : HassState) (task : Task) (st : ExecSt) :
    List ExecResult × ExecSt :=
  let task_id := task.id.getD "unknown"
  if !(pyTruthy task.start_iso) || !(pyTruthy task.end_iso) then
    ([{ task_id := task_id, task_type := some "calendar_query",
        operation := some "calendar_query", success := false,
        error := some "Missing start or end date" }], st)
  else
    let start_iso := task.start_iso.getD ""
    let end_iso := task.end_iso.getD ""
    let calendar_entities := hass.states.filterMap (fun s =>
      if isPre "calendar.".data s.entity_id.data then some s.entity_id else none)
    if calendar_entities.isEmpty then
      ([{ task_id := task_id, task_type := some "calendar_query",
          operation := some "calendar_query", events := some [], success := true,
          message := some "No calendars found" }], st)
    else
      let p := execCalendarGo hass start_iso end_iso calendar_entities st
      ([{ task_id := task_id, task_type := some "calendar_query",
          operation := some "calendar_query", events := some p.fst,
          event_count := some p.fst.length, success := true }], p.snd)

-- TaskExecutor._execute_calendar_create.
def executeCalendarCreate (hass : HassState) (task : Task) (st : ExecSt) :
    List ExecResult × ExecSt :=
  let task_id := task.id.getD "unknown"
  if !(pyTruthy task.selected_calendar) then
    ([{ task_id := task_id, task_type := some "calendar_create",
        success := false, error := some "No calendar selected" }], st)
  else
    let cal := task.selected_calendar.getD ""
    let p := doCall hass st (.calendarCreateEvent cal)
    if p.fst then
      ([{ task_id := task_id, task_type := some "calendar_create",
          operation := some "calendar_create", calendar := some cal,
          summary := task.summary, success := true }], p.snd)
    else
      ([{ task_id := task_id, task_type := some "calendar_create",
          operation := some "calendar_create", success := false,
          error := some "service call failed" }], p.snd)

def executeMemoryRead (task : Task) (st : ExecSt) : List ExecResult × ExecSt :=
  ([{ task_id := task.id.getD "unknown", task_type := some "memory_read",
      operation := some "memory_read", success := false,
      error := some "Memory operations not yet integrated" }], st)

def executeMemoryWrite (task : Task) (st : ExecSt) : List ExecResult × ExecSt :=
  ([{ task_id := task.id.getD "unknown", task_type := some "memory_write",
      operation := some "memory_write", success := false,
      error := some "Memory operations not yet integrated" }], st)

-- Python str() of an optional string, as an f-string renders None.
def pyShowOpt : Option String → String
  | some s => s
  | none => "None"

-- The single failed record returned for an unrecognized task type.
def unknownTypeResult (task : Task) : ExecResult :=
  { task_id := task.id.getD "unknown", task_type := task.type, success := false,
    error := some ("Unknown task type: " ++ pyShowOpt task.type) }

-- TaskExecutor._execute_task dispatch.
def executeTask (hass : HassState) (task : Task) (st : ExecSt) :
    List ExecResult × ExecSt :=
  if task.type = some "device_control" then executeDeviceControl hass task st
  else if task.type = some "shopping_add" then executeShoppingAdd hass task st
  else if task.type = some "shopping_query" then executeShoppingQuery hass task st
  else if task.type = some "shopping_remove" then executeShoppingRemove task st
  else if task.type = some "calendar_query" then executeCalendarQuery hass task st
  else if task.type = some "calendar_create" then executeCalendarCreate hass task st
  else if task.type = some "memory_read" then executeMemoryRead task st
  else if task.type = some "memory_write" then executeMemoryWrite task st
  else ([unknownTypeResult task], st)

-- The loop of TaskExecutor.execute_tasks: tasks not ready for execution are
-- skipped, the rest are dispatched against the shared state.
def executeTasksGo (hass : HassState) : List Task → ExecSt → List ExecResult × ExecSt
  | [], st => ([], st)
  | t :: ts, st =>
    if t.status = some "ready_for_execution" then
      let p := executeTask hass t st
      let q := executeTasksGo hass ts p.snd
      (p.fst ++ q.fst, q.snd)
    else executeTasksGo hass ts st

-- execute_tasks with the state it ends in; the signature set starts empty
-- for every call.
def executeTasksSt (hass : HassState) (tasks : List Task) : List ExecResult × ExecSt :=
  executeTasksGo hass tasks initExecSt

structure ExecReport where
  total_tasks : Nat
  successful_operations : Nat
  failed_operations : Nat
  results : List ExecResult
deriving DecidableEq

def executeTasks (hass : HassState) (tasks : List Task) : ExecReport :=
  let results := (executeTasksSt hass tasks).fst
  let successful := (results.filter (·.success)).length
  { total_tasks := tasks.length, successful_operations := successful,
    failed_operations := results.length - successful, results := results }

-- The device-control signatures among the logged calls, and those that
-- succeeded.
def deviceSigs (calls : List (CallRec × Bool)) : List String :=
  calls.filterMap (fun c =>
    match c.fst with
    | .device s => some s
    | _ => none)

-- The dedup set mirrors the successful device calls of the log.
def SigsMatchCalls (st : ExecSt) : Prop :=
  ∀ s, s ∈ st.executed_signatures ↔ (CallRec.device s, true) ∈ st.calls

-- The logged device signatures are distinct and all recorded in the set.
def DedupSound (st : ExecSt) : Prop :=
  (deviceSigs st.calls).Nodup ∧ ∀ s ∈ deviceSigs st.calls, s ∈ st.executed_signatures

-- The closed task-type enumeration of the task model.
def knownTaskTypes : List String :=
  ["device_control", "timer_start", "shopping_add", "shopping_query", "shopping_remove",
   "calendar_query", "calendar_create", "memory_read", "memory_write"]

-- Character-level facts about the ASCII case mapping.

theorem charOfNat_toNat {n : Nat} (h : n < 55296) : (Char.ofNat n).toNat = n := by
  have hv : n.isValidChar := Or.inl h
  simp [Char.ofNat, hv, Char.ofNatAux, Char.toNat, UInt32.toNat, BitVec.toNat_ofNatLt]

theorem isDigit_toLower_false {c : Char} (h : c.isDigit = false) :
    (Char.toLower c).isDigit = false := by
  unfold Char.toLower
  dsimp only
  split
  · next hcond =>
    have hv : (c.toNat + 32).isValidChar := Or.inl (by omega)
    simp only [Char.isDigit, Char.ofNat, hv, dif_pos, Char.ofNatAux]
    simp only [UInt32.le_def, BitVec.le_def, BitVec.toNat_ofNatLt]
    simp
    intro h48
    omega
  · exact h

theorem toLower_of_isDigit {c : Char} (h : c.isDigit = true) : Char.toLower c = c := by
  unfold Char.toLower
  dsimp only
  split
  · next hcond =>
    exfalso
    simp only [Char.isDigit, Bool.and_eq_true, decide_eq_true_eq] at h
    have h57 : c.val ≤ 57 := h.2
    simp only [Char.toNat, UInt32.toNat] at hcond
    rw [UInt32.le_def, BitVec.le_def] at h57
    have h57lit : (57 : UInt32).toBitVec.toNat = 57 := rfl
    omega
  · rfl

theorem pySpace_false_of_isDigit {c : Char} (h : c.isDigit = true) : pySpace c = false := by
  cases hq : pySpace c with
  | false => rfl
  | true =>
    exfalso
    simp only [pySpace, Char.isWhitespace, Bool.or_eq_true, decide_eq_true_eq] at hq
    rcases hq with ((rfl | rfl) | rfl) | rfl <;> exact absurd h (by decide)

-- Membership facts about the Python string helpers.

theorem mem_dropWhile_of_mem {p : Char → Bool} {c : Char} {l : List Char}
    (hm : c ∈ l) (hp : p c = false) : c ∈ l.dropWhile p := by
  rw [← List.takeWhile_append_dropWhile p l] at hm
  rcases List.mem_append.mp hm with h | h
  · exact absurd (List.mem_takeWhile_imp h) (by simp [hp])
  · exact h

theorem mem_of_mem_pyStrip {c : Char} {l : List Char} (h : c ∈ pyStrip l) : c ∈ l := by
  unfold pyStrip at h
  have h1 := List.mem_reverse.mp h
  have h2 := (List.dropWhile_sublist _).mem h1
  have h3 := List.mem_reverse.mp h2
  exact (List.dropWhile_sublist _).mem h3

theorem mem_pyStrip_of_mem {c : Char} {l : List Char}
    (hm : c ∈ l) (hsp : pySpace c = false) : c ∈ pyStrip l := by
  unfold pyStrip
  rw [List.mem_reverse]
  exact mem_dropWhile_of_mem
    (List.mem_reverse.mpr (mem_dropWhile_of_mem hm hsp)) hsp

theorem isPre_iff : ∀ (u l : List Char), isPre u l = true ↔ u <+: l
  | [], l => by
    simp only [isPre]
    exact ⟨fun _ => ⟨l, rfl⟩, fun _ => by trivial⟩
  | a :: as, [] => by
    simp only [isPre]
    constructor
    · intro h
      exact absurd h (by simp)
    · rintro ⟨t, ht⟩
      exact absurd ht (by simp)
  | a :: as, b :: bs => by
    simp only [isPre, Bool.and_eq_true, beq_iff_eq, isPre_iff as bs]
    constructor
    · rintro ⟨rfl, t, rfl⟩
      exact ⟨t, rfl⟩
    · rintro ⟨t, ht⟩
      injection ht with h1 h2
      exact ⟨h1, t, h2⟩

theorem within_of_pre_suf {u r l : List Char} (h1 : u <+: r) (h2 : r <:+ l) : u <:+: l := by
  obtain ⟨t, rfl⟩ := h1
  obtain ⟨p, rfl⟩ := h2
  exact ⟨p, t, by simp⟩

-- Every character of the lowered, stripped duration string is the ASCII
-- lower-casing of a character of the input.

theorem durationLowerOf_no_digit {s : String} (h : ∀ c ∈ s.data, c.isDigit = false) :
    ∀ c ∈ durationLowerOf s, c.isDigit = false := by
  intro c hc
  have hc2 : c ∈ pyLower s.data := mem_of_mem_pyStrip hc
  obtain ⟨d, hd, rfl⟩ := List.mem_map.mp hc2
  exact isDigit_toLower_false (h d hd)

theorem durationLowerOf_has_digit {s : String} (h : ∃ c ∈ s.data, c.isDigit = true) :
    ∃ c ∈ durationLowerOf s, c.isDigit = true := by
  obtain ⟨c, hc, hcd⟩ := h
  refine ⟨c, ?_, hcd⟩
  have hmem : c ∈ pyLower s.data := by
    have := List.mem_map_of_mem Char.toLower hc
    rwa [toLower_of_isDigit hcd] at this
  exact mem_pyStrip_of_mem hmem (pySpace_false_of_isDigit hcd)

theorem unitSeconds_default (n : Nat) : unitSeconds n "minute" = n * 60 := rfl

/-- Claim C6: the duration parser maps "5 minutes" to 300 seconds and
"1 Stunde" to 3600 seconds, and any input in which the number-plus-unit
pattern is unrecognized (no digit occurs, including the empty string)
yields the 300-second default. -/
theorem resolver_duration_defaults (s : String) (h : ∀ c ∈ s.data, c.isDigit = false) :
    parseDuration "5 minutes" = 300 ∧ parseDuration "1 Stunde" = 3600 ∧
    parseDuration "" = 300 ∧ parseDuration s = 300 := by
  refine ⟨by decide, by decide, by decide, ?_⟩
  by_cases hs : s = ""
  · subst hs; decide
  · unfold parseDuration
    rw [if_neg hs]
    have hrest : (durationLowerOf s).dropWhile (fun c => !c.isDigit) = [] :=
      List.dropWhile_eq_nil_iff.mpr (fun a ha => by
        simp [durationLowerOf_no_digit h a ha])
    unfold durationSearch
    simp [hrest]

/-- Witness for C6 at the concrete unparsable input "in a moment". -/
theorem resolver_duration_defaults_witness :
    parseDuration "5 minutes" = 300 ∧ parseDuration "1 Stunde" = 3600 ∧
    parseDuration "" = 300 ∧ parseDuration "in a moment" = 300 :=
  resolver_duration_defaults "in a moment" (by decide)

/-- Claim C9: a duration string containing a digit run but no unit word of
the recognized vocabulary is read as minutes: the parser returns the first
number times 60 rather than the 300-second default; in particular "90" and
"90 sec" both yield 5400 seconds. -/
theorem resolver_duration_bare_number (s : String)
    (h1 : ∃ c ∈ s.data, c.isDigit = true)
    (h2 : ∀ u ∈ durationUnits, ¬ u.data <:+: durationLowerOf s) :
    parseDuration s = firstNumber s * 60 ∧
    parseDuration "90" = 5400 ∧ parseDuration "90 sec" = 5400 := by
  refine ⟨?_, by decide, by decide⟩
  have hs : s ≠ "" := by
    rintro rfl
    obtain ⟨c, hc, -⟩ := h1
    exact absurd hc (by simp)
  unfold parseDuration
  rw [if_neg hs]
  have hrest : (durationLowerOf s).dropWhile (fun c => !c.isDigit) ≠ [] := by
    intro hnil
    obtain ⟨c, hc, hcd⟩ := durationLowerOf_has_digit h1
    have := List.dropWhile_eq_nil_iff.mp hnil c hc
    simp [hcd] at this
  have hfind : findUnit
      ((((durationLowerOf s).dropWhile (fun c => !c.isDigit)).dropWhile Char.isDigit).dropWhile
        pySpace) = none := by
    apply List.find?_eq_none.mpr
    intro u hu
    simp only [Bool.not_eq_true]
    cases hq : isPre u.data
        ((((durationLowerOf s).dropWhile (fun c => !c.isDigit)).dropWhile Char.isDigit).dropWhile
          pySpace) with
    | false => rfl
    | true =>
      exfalso
      have hpre := (isPre_iff _ _).mp hq
      have hsuf : ((((durationLowerOf s).dropWhile (fun c => !c.isDigit)).dropWhile
          Char.isDigit).dropWhile pySpace) <:+ durationLowerOf s :=
        (List.dropWhile_suffix _).trans
          ((List.dropWhile_suffix _).trans (List.dropWhile_suffix _))
      exact h2 u hu (within_of_pre_suf hpre hsuf)
  have hds : durationSearch (durationLowerOf s) = some (firstNumber s, none) := by
    unfold durationSearch firstNumber
    rw [if_neg (by simp [List.isEmpty_iff, hrest])]
    simp only [hfind]
  rw [hds]
  exact unitSeconds_default _

/-- Witness for C9 at the concrete input "90 sec". -/
theorem resolver_duration_bare_number_witness :
    parseDuration "90 sec" = firstNumber "90 sec" * 60 ∧
    parseDuration "90" = 5400 ∧ parseDuration "90 sec" = 5400 :=
  resolver_duration_bare_number "90 sec" (by decide) (by decide)

/-- Claim C5: the shopping_add resolver splits raw_items on commas, the
words und and and, or an ampersand, trims and capitalizes each token and
drops empty ones: "Käse und Wein" gives Käse and Wein, "milk, eggs, bread"
gives Milk, Eggs, Bread, empty or whitespace-only input gives no items, and
the status always becomes ready_for_execution. -/
theorem resolver_shopping_split (t : Task) :
    (resolveShoppingAdd { t with raw_items := some "Käse und Wein" }).items
      = ["Käse", "Wein"] ∧
    (resolveShoppingAdd { t with raw_items := some "milk, eggs, bread" }).items
      = ["Milk", "Eggs", "Bread"] ∧
    (resolveShoppingAdd { t with raw_items := some "" }).items = [] ∧
    (resolveShoppingAdd { t with raw_items := some "   " }).items = [] ∧
    (resolveShoppingAdd t).status = some "ready_for_execution" :=
  ⟨rfl, rfl, rfl, rfl, rfl⟩

-- The decimal rendering is injective, via its evaluation back to Nat.

theorem natDecAux_zero (fuel : Nat) (acc : List Char) : natDecAux fuel 0 acc = acc := by
  cases fuel <;> simp [natDecAux]

theorem digitChar_toNat {d : Nat} (h : d < 10) : (Char.ofNat (48 + d)).toNat - 48 = d := by
  rw [charOfNat_toNat (by omega)]
  omega

theorem natDecAux_foldl : ∀ (fuel n : Nat) (acc : List Char), 0 < n → n ≤ fuel →
    digitsVal (natDecAux fuel n acc)
      = acc.foldl (fun a c => a * 10 + (c.toNat - 48)) n := by
  intro fuel
  induction fuel with
  | zero => intro n acc h1 h2; omega
  | succ fuel ih =>
    intro n acc h1 h2
    rw [natDecAux, if_neg (by omega)]
    by_cases hq : n / 10 = 0
    · rw [hq, natDecAux_zero]
      have hn10 : n < 10 := (Nat.div_eq_zero_iff (by omega)).mp hq
      unfold digitsVal
      simp only [List.foldl_cons]
      rw [digitChar_toNat (Nat.mod_lt n (by omega))]
      congr 1
      omega
    · have hlt : n / 10 ≤ fuel := by
        have := Nat.div_lt_self h1 (by omega : 1 < 10)
        omega
      rw [ih (n / 10) _ (by omega) hlt]
      simp only [List.foldl_cons]
      rw [digitChar_toNat (Nat.mod_lt n (by omega))]
      congr 1
      have := Nat.div_add_mod n 10
      omega

theorem digitsVal_natDec (n : Nat) : digitsVal (natDec n).data = n := by
  by_cases h : n = 0
  · subst h; decide
  · unfold natDec
    rw [if_neg h]
    show digitsVal (natDecAux (n + 1) n []) = n
    rw [natDecAux_foldl (n + 1) n [] (by omega) (by omega)]
    rfl

theorem natDec_injective : Function.Injective natDec := by
  intro a b h
  have := congrArg (fun s => digitsVal s.data) h
  simpa [digitsVal_natDec] using this

theorem tId_injective : Function.Injective (fun k : Nat => some ("t" ++ natDec k)) := by
  intro a b h
  simp only [Option.some.injEq] at h
  have hd := congrArg String.data h
  rw [String.data_append, String.data_append] at hd
  have : (natDec a).data = (natDec b).data := by
    have ht : ("t" : String).data = ['t'] := rfl
    rw [ht] at hd
    simpa using hd
  exact natDec_injective (String.ext_iff.mpr this)

-- The identifiers produced by the Planner validation loop when no task
-- arrives with an id.

theorem plannerAssignGo_ids : ∀ (ts : List Task) (i : Nat), (∀ t ∈ ts, t.id = none) →
    (plannerAssignGo i ts).map Task.id
      = (List.range' (i + 1) ts.length).map (fun k => some ("t" ++ natDec k)) := by
  intro ts
  induction ts with
  | nil => intro i _; simp [plannerAssignGo]
  | cons t ts ih =>
    intro i h
    have ht : t.id = none := h t (by simp)
    have hrest : ∀ x ∈ ts, x.id = none := fun x hx => h x (by simp [hx])
    simp only [plannerAssignGo, ht, if_pos, List.map_cons, List.length_cons]
    rw [List.range'_succ (i + 1) ts.length 1, List.map_cons]
    congr 1
    exact ih (i + 1) hrest

theorem plannerAssignGo_fields : ∀ (ts : List Task) (i : Nat),
    ∀ t ∈ plannerAssignGo i ts, t.id.isSome ∧ t.status.isSome := by
  intro ts
  induction ts with
  | nil => intro i t ht; simp [plannerAssignGo] at ht
  | cons x ts ih =>
    intro i t ht
    simp only [plannerAssignGo, List.mem_cons] at ht
    rcases ht with rfl | ht
    · refine ⟨?_, ?_⟩
      · cases hid : x.id <;> simp [hid]
      · cases hst : x.status <;> simp [hst]
    · exact ih (i + 1) t ht

/-- Claim C8, counterexample: a batch in which the first task arrives with
the id t2 and the second arrives without an id is given the duplicate id t2
for the second task, so ids are not unique in mixed batches. -/
theorem planner_ids_counterexample :
    (plannerAssign [{ id := some "t2" }, {}]).map Task.id = [some "t2", some "t2"] ∧
    ¬ ((plannerAssign [{ id := some "t2" }, {}]).map Task.id).Nodup := by
  constructor
  · decide
  · decide

/-- Claim C8 as amended: every task in a validated batch carries an id
(missing ones are assigned t1, t2, and so on by position) and a status, and
the resulting ids are unique within the batch whenever no task arrives with
an LLM-provided id; a mixed batch can collide. -/
theorem planner_ids_amended (tasks : List Task) :
    (∀ t ∈ plannerAssign tasks, t.id.isSome ∧ t.status.isSome) ∧
    ((∀ t ∈ tasks, t.id = none) → ((plannerAssign tasks).map Task.id).Nodup) := by
  constructor
  · exact plannerAssignGo_fields tasks 0
  · intro h
    unfold plannerAssign
    rw [plannerAssignGo_ids tasks 0 h]
    exact (List.nodup_range' 1 tasks.length).map tId_injective

/-- Witness for the amended C8 on a concrete batch of two tasks without
ids. -/
theorem planner_ids_amended_witness :
    (∀ t ∈ ([{}, {}] : List Task), t.id = none) ∧
    ((plannerAssign [{}, {}]).map Task.id).Nodup :=
  ⟨by decide, (planner_ids_amended [{}, {}]).2 (by decide)⟩

theorem parseDate_tomorrow (now : PyDateTime) :
    parseDate now "tomorrow" = midnight (nextDay now) := by
  unfold parseDate
  rw [if_neg (by decide)]
  have hdl : String.mk (pyStrip (pyLower ("tomorrow" : String).data)) = "tomorrow" := by decide
  simp only [hdl]
  rw [if_neg (by decide), if_pos (by decide)]

/-- Claim C7: the calendar_query resolver defaults the end timestamp to
start plus 7 days when end is unspecified, turns an equal start and end
into a one-day window of start plus 1 day, always advances the status, and
with the current date 2025-11-24 resolves start and end both "tomorrow" to
the window from 2025-11-25T00:00:00 to 2025-11-26T00:00:00. -/
theorem resolver_calendar_window (now : PyDateTime) (t : Task)
    (hy : now.year = 2025) (hm : now.month = 11) (hd : now.day = 24) :
    (∀ (now2 : PyDateTime) (t2 : Task), pyTruthy t2.«end» = false →
      (resolveCalendarQuery now2 t2).end_iso
        = some (isoformat (addDays (calendarStartDt now2 t2) 7)) ∧
      (resolveCalendarQuery now2 t2).status = some "ready_for_execution") ∧
    (∀ (now2 : PyDateTime) (t2 : Task), pyTruthy t2.start = true →
      pyTruthy t2.«end» = true → t2.start = t2.«end» →
      (resolveCalendarQuery now2 t2).end_iso
        = some (isoformat (addDays (calendarStartDt now2 t2) 1))) ∧
    ((resolveCalendarQuery now
        { t with start := some "tomorrow", «end» := some "tomorrow" }).start_iso
      = some "2025-11-25T00:00:00" ∧
     (resolveCalendarQuery now
        { t with start := some "tomorrow", «end» := some "tomorrow" }).end_iso
      = some "2025-11-26T00:00:00" ∧
     (resolveCalendarQuery now
        { t with start := some "tomorrow", «end» := some "tomorrow" }).status
      = some "ready_for_execution") := by
  refine ⟨?_, ?_, ?_⟩
  · intro now2 t2 he
    simp [resolveCalendarQuery, he]
  · intro now2 t2 hs he heq
    simp [resolveCalendarQuery, hs, he, heq]
  · cases now with
    | mk y mo d h mi s us =>
      simp only at hy hm hd
      subst hy hm hd
      have hnd : nextDay (PyDateTime.mk 2025 11 24 h mi s us)
          = PyDateTime.mk 2025 11 25 h mi s us := by
        unfold nextDay
        dsimp only
        rw [if_pos (by decide)]
      have hsd : calendarStartDt (PyDateTime.mk 2025 11 24 h mi s us)
          { t with start := some "tomorrow", «end» := some "tomorrow" }
          = PyDateTime.mk 2025 11 25 0 0 0 0 := by
        unfold calendarStartDt
        dsimp only
        rw [if_pos (by decide)]
        show parseDate _ "tomorrow" = _
        rw [parseDate_tomorrow, hnd]
        rfl
      refine ⟨?_, ?_, ?_⟩
      · dsimp only [resolveCalendarQuery]
        rw [hsd]
        decide
      · dsimp only [resolveCalendarQuery]
        rw [if_pos (by decide), hsd]
        decide
      · dsimp only [resolveCalendarQuery]

/-- Witness for C7 at a concrete clock time on 2025-11-24. -/
theorem resolver_calendar_window_witness :
    (resolveCalendarQuery
        { year := 2025, month := 11, day := 24, hour := 13, minute := 7, second := 2,
          microsecond := 5 }
        { start := some "tomorrow", «end» := some "tomorrow" }).start_iso
      = some "2025-11-25T00:00:00" ∧
    (resolveCalendarQuery
        { year := 2025, month := 11, day := 24, hour := 13, minute := 7, second := 2,
          microsecond := 5 }
        { start := some "tomorrow", «end» := some "tomorrow" }).end_iso
      = some "2025-11-26T00:00:00" :=
  ⟨((resolver_calendar_window
      { year := 2025, month := 11, day := 24, hour := 13, minute := 7, second := 2,
        microsecond := 5 } {} rfl rfl rfl).2.2).1,
   ((resolver_calendar_window
      { year := 2025, month := 11, day := 24, hour := 13, minute := 7, second := 2,
        microsecond := 5 } {} rfl rfl rfl).2.2).2.1⟩

-- Membership in the valid-id set comes from the available entity list.

theorem mem_availIds {eid : String} {es : List AvailEntity} (h : eid ∈ availIds es) :
    ∃ e ∈ es, e.entity_id = some eid := by
  unfold availIds at h
  obtain ⟨e, he, hf⟩ := List.mem_filterMap.mp h
  refine ⟨e, he, ?_⟩
  cases hid : e.entity_id with
  | none => rw [hid] at hf; simp at hf
  | some x =>
    rw [hid] at hf
    by_cases hx : x = ""
    · simp [hx] at hf
    · simp only [hx, if_false] at hf
      injection hf with hf
      rw [hf]

/-- Claim C1: whatever the LLM answers (including a hallucinated, empty or
missing selected_entities list), every entity id in the task returned by
the device-control Selector occurs as the entity_id of an element of that
available_entities of that task, on the hard-filter path and on the local
substring-matching fallback path alike. -/
theorem selector_no_invented_ids (llm : LLMOutcome) (task : Task) :
    ∀ eid ∈ (selectDeviceEntities llm task).selected_entities,
      ∃ e ∈ task.available_entities, e.entity_id = some eid := by
  intro eid hmem
  cases llm with
  | err => simp [selectDeviceEntities] at hmem
  | ok res =>
    simp only [selectDeviceEntities] at hmem
    by_cases hcond :
        ((res.selected_entities.getD []).filter
            (fun eid => (availIds task.available_entities).contains eid)).isEmpty
          && !task.available_entities.isEmpty && !task.raw_targets.isEmpty
    · rw [if_pos hcond] at hmem
      obtain ⟨e, he, hf⟩ := List.mem_filterMap.mp hmem
      refine ⟨e, he, ?_⟩
      cases hid : e.entity_id with
      | none => rw [hid] at hf; simp at hf
      | some x =>
        rw [hid] at hf
        by_cases hx : x = ""
        · simp [hx] at hf
        · simp only [hx, if_false] at hf
          by_cases hmatch :
              (task.raw_targets.map (fun t => pyLower t.data)).any
                (fun t => strIn t (pyLower (e.friendly_name.getD "").data))
          · rw [if_pos hmatch] at hf
            injection hf with hf
            rw [hf]
          · rw [if_neg hmatch] at hf
            exact absurd hf (by simp)
    · rw [if_neg hcond] at hmem
      have h2 := (List.mem_filter.mp hmem).2
      have h3 : eid ∈ availIds task.available_entities := List.elem_iff.mp h2
      exact mem_availIds h3

/-- Witness for C1: a concrete selection keeps only the known id. -/
theorem selector_no_invented_ids_witness :
    ∃ e ∈ [{ entity_id := some "light.a" : AvailEntity }], e.entity_id = some "light.a" :=
  selector_no_invented_ids (.ok { selected_entities := some ["light.a", "light.fake"] })
    { type := some "device_control",
      available_entities := [{ entity_id := some "light.a" }] }
    "light.a" (by decide)

/-- Claim C3: a device_control task awaiting selection always leaves the
Selector with status ready_for_execution, also when no entities were
selected; only a raised LLM call produces status failed, and then the
selected entity list is empty. -/
theorem selector_status_advances (llm : LLMOutcome) (task : Task)
    (hst : task.status = some "awaiting_selection")
    (hty : task.type = some "device_control") :
    (llm = .err → (selectTask llm task).status = some "failed" ∧
      (selectTask llm task).selected_entities = []) ∧
    (∀ res, llm = .ok res →
      (selectTask llm task).status = some "ready_for_execution") := by
  constructor
  · rintro rfl
    simp [selectTask, hst, hty, selectDeviceEntities]
  · rintro res rfl
    simp [selectTask, hst, hty, selectDeviceEntities]

/-- Witness for C3 at a concrete task, on both LLM outcomes. -/
theorem selector_status_advances_witness :
    (selectTask .err
        { type := some "device_control", status := some "awaiting_selection" }).status
      = some "failed" ∧
    (selectTask (.ok { selected_entities := none })
        { type := some "device_control", status := some "awaiting_selection" }).status
      = some "ready_for_execution" :=
  ⟨((selector_status_advances .err
      { type := some "device_control", status := some "awaiting_selection" }
      rfl rfl).1 rfl).1,
   (selector_status_advances (.ok { selected_entities := none })
      { type := some "device_control", status := some "awaiting_selection" }
      rfl rfl).2 { selected_entities := none } rfl⟩

-- The Executor loop distributes over concatenation of the batch.

theorem executeTasksGo_append (hass : HassState) (xs ys : List Task) (st : ExecSt) :
    executeTasksGo hass (xs ++ ys) st
      = ((executeTasksGo hass xs st).fst
           ++ (executeTasksGo hass ys (executeTasksGo hass xs st).snd).fst,
         (executeTasksGo hass ys (executeTasksGo hass xs st).snd).snd) := by
  induction xs generalizing st with
  | nil => simp [executeTasksGo]
  | cons x xs ih =>
    by_cases hx : x.status = some "ready_for_execution"
    · simp [executeTasksGo, hx, ih, List.append_assoc]
    · simp [executeTasksGo, hx, ih]

/-- Claim C4: a task whose type is outside the closed enumeration is passed
through by the Resolver unchanged except that its status becomes
ready_for_execution, and the Executor produces exactly one failed result
for it, with an Unknown-task-type error, leaving the state untouched and
executing the surrounding batch exactly as if the unknown task contributed
only that one record. -/
theorem unknown_type_isolated (hass : HassState) (now : PyDateTime) (t : Task)
    (hty : ∀ s ∈ knownTaskTypes, t.type ≠ some s) :
    resolveTask hass now t = { t with status := some "ready_for_execution" } ∧
    (∀ st : ExecSt, executeTask hass { t with status := some "ready_for_execution" } st
        = ([unknownTypeResult { t with status := some "ready_for_execution" }], st)) ∧
    (∀ (pre post : List Task) (st0 : ExecSt),
      executeTasksGo hass (pre ++ { t with status := some "ready_for_execution" } :: post) st0
        = ((executeTasksGo hass pre st0).fst
             ++ unknownTypeResult { t with status := some "ready_for_execution" }
               :: (executeTasksGo hass post (executeTasksGo hass pre st0).snd).fst,
           (executeTasksGo hass post (executeTasksGo hass pre st0).snd).snd)) := by
  have h1 : ¬ t.type = some "device_control" := hty _ (by simp [knownTaskTypes])
  have h2 : ¬ t.type = some "timer_start" := hty _ (by simp [knownTaskTypes])
  have h3 : ¬ t.type = some "shopping_add" := hty _ (by simp [knownTaskTypes])
  have h4 : ¬ t.type = some "shopping_query" := hty _ (by simp [knownTaskTypes])
  have h5 : ¬ t.type = some "shopping_remove" := hty _ (by simp [knownTaskTypes])
  have h6 : ¬ t.type = some "calendar_query" := hty _ (by simp [knownTaskTypes])
  have h7 : ¬ t.type = some "calendar_create" := hty _ (by simp [knownTaskTypes])
  have h8 : ¬ t.type = some "memory_read" := hty _ (by simp [knownTaskTypes])
  have h9 : ¬ t.type = some "memory_write" := hty _ (by simp [knownTaskTypes])
  have hexec : ∀ st : ExecSt,
      executeTask hass { t with status := some "ready_for_execution" } st
        = ([unknownTypeResult { t with status := some "ready_for_execution" }], st) := by
    intro st
    unfold executeTask
    dsimp only
    rw [if_neg h1, if_neg h3, if_neg h4, if_neg h5, if_neg h6, if_neg h7, if_neg h8, if_neg h9]
  refine ⟨?_, hexec, ?_⟩
  · unfold resolveTask
    rw [if_neg h1, if_neg h2, if_neg h3, if_neg h6, if_neg h7]
  · intro pre post st0
    rw [executeTasksGo_append]
    have hone : ∀ S : ExecSt,
        executeTasksGo hass ({ t with status := some "ready_for_execution" } :: post) S
          = (unknownTypeResult { t with status := some "ready_for_execution" }
               :: (executeTasksGo hass post S).fst,
             (executeTasksGo hass post S).snd) := by
      intro S
      simp only [executeTasksGo]
      rw [if_pos trivial, hexec S]
      simp
    rw [hone]

-- A state invariant that survives the per-entity device step and the
-- logging of a non-device service call survives the whole Executor run:
-- every handler changes the state only through those two operations.

theorem inv_entitiesGo {P : ExecSt → Prop} (hass : HassState)
    (hdev : ∀ tid dom svc e st, P st → P (executeDeviceEntity hass tid dom svc e st).snd)
    (tid dom svc : String) :
    ∀ (es : List String) (st : ExecSt), P st →
      P (execEntitiesGo hass tid dom svc es st).snd := by
  intro es
  induction es with
  | nil => intro st h; simpa [execEntitiesGo] using h
  | cons e es ih =>
    intro st h
    simp only [execEntitiesGo]
    exact ih _ (hdev tid dom svc e st h)

theorem inv_deviceControl {P : ExecSt → Prop} (hass : HassState)
    (hdev : ∀ tid dom svc e st, P st → P (executeDeviceEntity hass tid dom svc e st).snd)
    (task : Task) (st : ExecSt) (h : P st) :
    P (executeDeviceControl hass task st).snd := by
  unfold executeDeviceControl
  by_cases hsel : task.selected_entities.isEmpty = true
  · rw [if_pos hsel]
    exact h
  · rw [if_neg hsel]
    exact inv_entitiesGo hass hdev _ _ _ _ st h

theorem inv_shoppingGo {P : ExecSt → Prop} (hass : HassState)
    (hnon : ∀ st rec b, (∀ s, rec ≠ .device s) → P st →
      P { st with calls := st.calls ++ [(rec, b)] })
    (tid : String) :
    ∀ (its : List String) (st : ExecSt), P st → P (execShoppingGo hass tid its st).snd := by
  intro its
  induction its with
  | nil => intro st h; simpa [execShoppingGo] using h
  | cons it its ih =>
    intro st h
    simp only [execShoppingGo, doCall]
    exact ih _ (hnon st (.shoppingAddItem it) _ (fun s hx => CallRec.noConfusion hx) h)

theorem inv_calendarGo {P : ExecSt → Prop} (hass : HassState)
    (hnon : ∀ st rec b, (∀ s, rec ≠ .device s) → P st →
      P { st with calls := st.calls ++ [(rec, b)] })
    (start_iso end_iso : String) :
    ∀ (cals : List String) (st : ExecSt), P st →
      P (execCalendarGo hass start_iso end_iso cals st).snd := by
  intro cals
  induction cals with
  | nil => intro st h; simpa [execCalendarGo] using h
  | cons cal cals ih =>
    intro st h
    simp only [execCalendarGo, doCall]
    exact ih _
      (hnon st (.calendarGet cal start_iso end_iso) _ (fun s hx => CallRec.noConfusion hx) h)

theorem inv_executeTask {P : ExecSt → Prop} (hass : HassState)
    (hdev : ∀ tid dom svc e st, P st → P (executeDeviceEntity hass tid dom svc e st).snd)
    (hnon : ∀ st rec b, (∀ s, rec ≠ .device s) → P st →
      P { st with calls := st.calls ++ [(rec, b)] })
    (task : Task) (st : ExecSt) (h : P st) :
    P (executeTask hass task st).snd := by
  unfold executeTask
  split_ifs
  · exact inv_deviceControl hass hdev task st h
  · exact inv_shoppingGo hass hnon _ _ st h
  · unfold executeShoppingQuery
    dsimp only
    cases hass.shopping_items <;> exact h
  · exact h
  · unfold executeCalendarQuery
    dsimp only
    split_ifs
    · exact h
    · exact h
    · exact inv_calendarGo hass hnon _ _ _ st h
  · unfold executeCalendarCreate
    dsimp only [doCall]
    split_ifs
    · exact h
    · exact hnon st (.calendarCreateEvent (task.selected_calendar.getD "")) _
        (fun s hx => CallRec.noConfusion hx) h
    · exact hnon st (.calendarCreateEvent (task.selected_calendar.getD "")) _
        (fun s hx => CallRec.noConfusion hx) h
  · exact h
  · exact h
  · exact h

theorem inv_tasksGo {P : ExecSt → Prop} (hass : HassState)
    (hdev : ∀ tid dom svc e st, P st → P (executeDeviceEntity hass tid dom svc e st).snd)
    (hnon : ∀ st rec b, (∀ s, rec ≠ .device s) → P st →
      P { st with calls := st.calls ++ [(rec, b)] }) :
    ∀ (tasks : List Task) (st : ExecSt), P st → P (executeTasksGo hass tasks st).snd := by
  intro tasks
  induction tasks with
  | nil => intro st h; simpa [executeTasksGo] using h
  | cons t ts ih =>
    intro st h
    simp only [executeTasksGo]
    split_ifs
    · exact ih _ (inv_executeTask hass hdev hnon t st h)
    · exact ih st h

-- The two closure properties for the signature-tracking invariant of C10.

theorem sigsMatch_nondevice {st : ExecSt} (rec : CallRec) (b : Bool)
    (hrec : ∀ s, rec ≠ .device s) (h : SigsMatchCalls st) :
    SigsMatchCalls { st with calls := st.calls ++ [(rec, b)] } := by
  intro s
  dsimp only [SigsMatchCalls] at h ⊢
  rw [List.mem_append]
  constructor
  · intro hs
    exact Or.inl ((h s).mp hs)
  · rintro (h1 | h1)
    · exact (h s).mpr h1
    · simp only [List.mem_singleton, Prod.mk.injEq] at h1
      exact absurd h1.1.symm (hrec s)

theorem sigsMatch_deviceEntity (hass : HassState) (tid dom svc e : String) (st : ExecSt)
    (h : SigsMatchCalls st) :
    SigsMatchCalls (executeDeviceEntity hass tid dom svc e st).snd := by
  unfold executeDeviceEntity
  by_cases hdup : st.executed_signatures.contains (mkSig dom svc e) = true
  · rw [if_pos hdup]
    exact h
  · rw [if_neg hdup]
    dsimp only [doCall]
    by_cases hok : hass.call_ok st.calls.length = true
    · rw [if_pos hok, hok]
      intro s
      dsimp only
      rw [List.mem_append, List.mem_append]
      constructor
      · rintro (hs | hs)
        · exact Or.inl ((h s).mp hs)
        · simp only [List.mem_singleton] at hs
          subst hs
          exact Or.inr (by simp)
      · rintro (hs | hs)
        · exact Or.inl ((h s).mpr hs)
        · simp only [List.mem_singleton, Prod.mk.injEq, CallRec.device.injEq] at hs
          exact Or.inr (by simp [hs.1])
    · rw [if_neg hok]
      have hokf : hass.call_ok st.calls.length = false := by
        cases hq : hass.call_ok st.calls.length
        · rfl
        · exact absurd hq hok
      rw [hokf]
      intro s
      dsimp only
      rw [List.mem_append]
      constructor
      · intro hs
        exact Or.inl ((h s).mp hs)
      · rintro (hs | hs)
        · exact (h s).mpr hs
        · simp at hs

/-- Claim C10: within one execute_tasks run the dedup signature set holds
exactly the signatures of device service calls that completed successfully,
and an entity whose signature is not yet in the set is always attempted
with a real call (never marked as a duplicate), so a failed call is retried
when the same signature comes up again. -/
theorem dedup_set_tracks_successes :
    (∀ (hass : HassState) (tasks : List Task) (s : String),
      s ∈ (executeTasksSt hass tasks).snd.executed_signatures
        ↔ (CallRec.device s, true) ∈ (executeTasksSt hass tasks).snd.calls) ∧
    (∀ (hass : HassState) (tid dom svc e : String) (st : ExecSt),
      mkSig dom svc e ∉ st.executed_signatures →
      ((executeDeviceEntity hass tid dom svc e st).snd.calls).length
          = st.calls.length + 1 ∧
      (executeDeviceEntity hass tid dom svc e st).fst.skipped = none) := by
  constructor
  · intro hass tasks
    have hinit : SigsMatchCalls initExecSt := by
      intro s
      simp [initExecSt]
    exact inv_tasksGo hass (sigsMatch_deviceEntity hass)
      (fun st rec b hrec h => sigsMatch_nondevice rec b hrec h) tasks initExecSt hinit
  · intro hass tid dom svc e st hmem
    by_cases hok : hass.call_ok st.calls.length = true
    · simp [executeDeviceEntity, doCall, hmem, hok]
    · simp [executeDeviceEntity, doCall, hmem, hok]

/-- Witness for C10 on a state that does not yet hold the signature. -/
theorem dedup_set_tracks_successes_witness :
    ((executeDeviceEntity
        { states := [], shopping_items := none, cal_events := fun _ => [],
          call_ok := fun _ => false }
        "t1" "light" "turn_on" "light.a" initExecSt).snd.calls).length
      = (initExecSt : ExecSt).calls.length + 1 ∧
    (executeDeviceEntity
        { states := [], shopping_items := none, cal_events := fun _ => [],
          call_ok := fun _ => false }
        "t1" "light" "turn_on" "light.a" initExecSt).fst.skipped = none :=
  dedup_set_tracks_successes.2
    { states := [], shopping_items := none, cal_events := fun _ => [],
      call_ok := fun _ => false }
    "t1" "light" "turn_on" "light.a" initExecSt (by decide)

-- The two closure properties for the dedup soundness invariant of C2.

theorem deviceSigs_append (c1 c2 : List (CallRec × Bool)) :
    deviceSigs (c1 ++ c2) = deviceSigs c1 ++ deviceSigs c2 := by
  simp [deviceSigs]

theorem dedupSound_nondevice {st : ExecSt} (rec : CallRec) (b : Bool)
    (hrec : ∀ s, rec ≠ .device s) (h : DedupSound st) :
    DedupSound { st with calls := st.calls ++ [(rec, b)] } := by
  have hnil : deviceSigs [(rec, b)] = [] := by
    cases rec
    case device s => exact absurd rfl (hrec _)
    all_goals rfl
  constructor
  · dsimp only
    rw [deviceSigs_append, hnil, List.append_nil]
    exact h.1
  · intro s hs
    dsimp only at hs ⊢
    rw [deviceSigs_append, hnil, List.append_nil] at hs
    exact h.2 s hs

theorem dedupSound_deviceEntity (hass : HassState) (hok : ∀ n, hass.call_ok n = true)
    (tid dom svc e : String) (st : ExecSt) (h : DedupSound st) :
    DedupSound (executeDeviceEntity hass tid dom svc e st).snd := by
  unfold executeDeviceEntity
  by_cases hdup : st.executed_signatures.contains (mkSig dom svc e) = true
  · rw [if_pos hdup]
    exact h
  · rw [if_neg hdup]
    dsimp only [doCall]
    rw [if_pos (hok st.calls.length), hok st.calls.length]
    have hnotin : mkSig dom svc e ∉ st.executed_signatures := by
      intro hmem
      exact hdup (List.elem_iff.mpr hmem)
    have hsig : deviceSigs [(CallRec.device (mkSig dom svc e), true)] = [mkSig dom svc e] := rfl
    constructor
    · dsimp only
      rw [deviceSigs_append, hsig, List.nodup_append]
      refine ⟨h.1, List.nodup_singleton _, ?_⟩
      intro x hx hx2
      simp only [List.mem_singleton] at hx2
      subst hx2
      exact hnotin (h.2 _ hx)
    · intro s hs
      dsimp only at hs ⊢
      rw [deviceSigs_append, hsig] at hs
      rcases List.mem_append.mp hs with h1 | h1
      · exact List.mem_append_left _ (h.2 s h1)
      · rw [List.mem_singleton] at h1
        subst h1
        exact List.mem_append_right _ (by simp)

/-- Claim C2: a device sub-operation whose signature was already executed
successfully in the same batch is not re-invoked but recorded as a
successful result skipped as duplicate, and when all service calls succeed,
executing the same task list twice in one execute_tasks call performs at
most one real service call per distinct domain.service:entity_id
signature. -/
theorem executor_dedup_idempotent :
    (∀ (hass : HassState) (tid dom svc e : String) (st : ExecSt),
      mkSig dom svc e ∈ st.executed_signatures →
      executeDeviceEntity hass tid dom svc e st
        = ({ task_id := tid, task_type := some "device_control",
             operation := some (dom ++ "." ++ svc), entity := some e,
             success := true, skipped := some "duplicate" }, st)) ∧
    (∀ hass : HassState, (∀ n, hass.call_ok n = true) →
      ∀ tasks : List Task,
        (deviceSigs (executeTasksSt hass (tasks ++ tasks)).snd.calls).Nodup) := by
  constructor
  · intro hass tid dom svc e st hmem
    unfold executeDeviceEntity
    rw [if_pos (List.elem_iff.mpr hmem)]
  · intro hass hok tasks
    have hinit : DedupSound initExecSt := by
      constructor
      · simp [initExecSt, deviceSigs]
      · intro s hs
        simp [initExecSt, deviceSigs] at hs
    exact (inv_tasksGo hass (dedupSound_deviceEntity hass hok)
      (fun st rec b hrec h => dedupSound_nondevice rec b hrec h)
      (tasks ++ tasks) initExecSt hinit).1

/-- Witness for C2: a duplicate signature is skipped, and a doubled batch
with all calls succeeding logs each device signature once. -/
theorem executor_dedup_idempotent_witness :
    executeDeviceEntity
        { states := [], shopping_items := none, cal_events := fun _ => [],
          call_ok := fun _ => true }
        "t1" "light" "turn_on" "light.a"
        { executed_signatures := ["light.turn_on:light.a"], calls := [] }
      = ({ task_id := "t1", task_type := some "device_control",
           operation := some ("light" ++ "." ++ "turn_on"), entity := some "light.a",
           success := true, skipped := some "duplicate" },
         { executed_signatures := ["light.turn_on:light.a"], calls := [] }) ∧
    (deviceSigs (executeTasksSt
        { states := [], shopping_items := none, cal_events := fun _ => [],
          call_ok := fun _ => true }
        ([{ type := some "device_control", id := some "t1",
            status := some "ready_for_execution", selected_entities := ["light.a"] }]
          ++ [{ type := some "device_control", id := some "t1",
                status := some "ready_for_execution",
                selected_entities := ["light.a"] }])).snd.calls).Nodup :=
  ⟨executor_dedup_idempotent.1
      { states := [], shopping_items := none, cal_events := fun _ => [],
        call_ok := fun _ => true }
      "t1" "light" "turn_on" "light.a"
      { executed_signatures := ["light.turn_on:light.a"], calls := [] } (by decide),
   executor_dedup_idempotent.2
      { states := [], shopping_items := none, cal_events := fun _ => [],
        call_ok := fun _ => true }
      (fun _ => rfl)
      [{ type := some "device_control", id := some "t1",
         status := some "ready_for_execution", selected_entities := ["light.a"] }]⟩

/-- Witness for C4 on a task of the unrecognized type take_over_world. -/
theorem unknown_type_isolated_witness :
    executeTask
        { states := [], shopping_items := none, cal_events := fun _ => [],
          call_ok := fun _ => true }
        { type := some "take_over_world", id := some "t1",
          status := some "ready_for_execution" }
        initExecSt
      = ([unknownTypeResult
            { type := some "take_over_world", id := some "t1",
              status := some "ready_for_execution" }], initExecSt) :=
  (unknown_type_isolated
      { states := [], shopping_items := none, cal_events := fun _ => [],
        call_ok := fun _ => true }
      { year := 2025, month := 11, day := 24, hour := 0, minute := 0, second := 0,
        microsecond := 0 }
      { type := some "take_over_world", id := some "t1" }
      (by decide)).2.1 initExecSt

end LlamaAssist
